import Mathlib

/-!
# Verification of `nft_mirror/oracle_server/src/airdrop/airdropService.ts`

A shallow embedding of the airdrop claim service: the `claim` orchestrator,
the `parseClaimInfo` / `isAirdropClaimInfo` validation stage, the
`getGasAndOracle` object resolver, the move-call construction of
`executeMoveCall`, and the two helpers `formatObjectId` and
`getPackageAndModule`.

JavaScript runtime values flowing through the pipeline are modelled by
`JsValue`.  Thrown exceptions are modelled by `Except` with the error type
`ClaimError`, whose constructors record which concrete JavaScript exception
each models (the tsoa `ValidateError`, the generic `Error` throws, the
`SyntaxError` of `JSON.parse`, and the `TypeError` of a property access on
`undefined`/`null` or of indexing past the end of a `filter` result).

The chain connection (`Connection`) is an external collaborator; it is
modelled as a pair of response functions, and the chain traffic the service
generates is recorded in an explicit `ChainOp` trace so that "no chain I/O
is performed" is a statement about the model, not a convention.

`JSON.parse` is the JavaScript standard library; it is modelled by
`jsonParse`, a recursive-descent parser for the JSON grammar restricted to
integer numeric literals and to the simple-escape string forms (`\uXXXX`
escapes, fractional/exponent numbers and `Infinity` are outside the modelled
subset; no claim input uses them).
-/

namespace Airdrop

/-- A JavaScript runtime value as it occurs in this pipeline.  `undefined`
and `nan` are separate constructors because `JSON.parse` never produces
them but property access and unary plus do. -/
inductive JsValue where
  | undefined
  | null
  | bool (b : Bool)
  /-- An integer-valued JavaScript number.  The modelled JSON subset has
  only integer numeric literals. -/
  | num (n : Int)
  /-- The JavaScript number `NaN` (produced by `ToNumber`, never by
  `JSON.parse`). -/
  | nan
  | str (s : String)
  | arr (xs : List JsValue)
  | obj (fields : List (String × JsValue))

/-- JavaScript truthiness: `undefined`, `null`, `false`, `0`, `NaN` and the
empty string are falsy; every other value (including every array and
object) is truthy. -/
def truthy : JsValue → Bool
  | .undefined => false
  | .null => false
  | .bool b => b
  | .num n => n != 0
  | .nan => false
  | .str s => s != ""
  | .arr _ => true
  | .obj _ => true

/-- Property lookup on a JavaScript value for the property names used by
this service: objects yield the bound value or `undefined`; primitives and
arrays have none of these properties, so the access yields `undefined`.
(Access on `undefined`/`null` throws and is handled by `jsGet`.) -/
def jsProp (v : JsValue) (key : String) : JsValue :=
  match v with
  | .obj fields => (((fields.filter (fun p => p.1 == key)).getLast?).map Prod.snd).getD .undefined
  | _ => .undefined

/-! ### The modelled subset of `JSON.parse` -/

def isJsonWs (c : Char) : Bool := [' ', '\t', '\n', '\r'].contains c

def skipWs : List Char → List Char
  | c :: cs => if isJsonWs c then skipWs cs else c :: cs
  | [] => []

/-- The table of `\x`-style JSON escapes (the `\uXXXX` form is outside the
modelled subset): each entry maps the character after the backslash to the
character it denotes. -/
def escTable : List (Char × Char) :=
  [('"', '"'), ('\\', '\\'), ('/', '/'), ('n', '\n'), ('t', '\t'),
   ('r', '\r'), ('b', Char.ofNat 8), ('f', Char.ofNat 12)]

/-- The value of a `\x`-style JSON escape character. -/
def escChar (c : Char) : Option Char :=
  (escTable.find? (fun p => p.1 == c)).map Prod.snd

/-- Reads the body of a JSON string literal up to (and consuming) the
closing quote; returns the decoded characters and the rest of the input. -/
def parseStringChars : List Char → Option (List Char × List Char)
  | [] => none
  | '"' :: rest => some ([], rest)
  | '\\' :: rest =>
    match rest with
    | [] => none
    | c :: rest' =>
      match escChar c with
      | some e => (parseStringChars rest').map (fun p => (e :: p.1, p.2))
      | none => none
  | c :: rest => (parseStringChars rest).map (fun p => (c :: p.1, p.2))

/-- Splits off the longest digit prefix of the input. -/
def takeDigits (cs : List Char) : List Char × List Char :=
  (cs.takeWhile Char.isDigit, cs.dropWhile Char.isDigit)

/-- The numeric value of a decimal digit character, by code point. -/
def decDigit (c : Char) : Nat := c.toNat - 48

def digitsVal (ds : List Char) : Nat :=
  ds.foldl (fun a c => 10 * a + decDigit c) 0

/-- Parses a JSON integer literal (optional minus sign, then digits). -/
def parseIntLit (cs : List Char) : Option (Int × List Char) :=
  match cs with
  | '-' :: rest =>
    let p := takeDigits rest
    if p.1.isEmpty then none else some (-(digitsVal p.1 : Int), p.2)
  | _ =>
    let p := takeDigits cs
    if p.1.isEmpty then none else some ((digitsVal p.1 : Int), p.2)

/-- Records a member of a JSON object, a later duplicate key overwriting an
earlier one as `JSON.parse` does. -/
def insertField (fields : List (String × JsValue)) (k : String) (v : JsValue) :
    List (String × JsValue) :=
  fields.filter (fun p => p.1 != k) ++ [(k, v)]

/-- If the input begins with the given keyword, the input after it. -/
def stripKeyword (kw : String) (cs : List Char) : Option (List Char) :=
  let k := kw.toList
  if cs.take k.length = k then some (cs.drop k.length) else none

mutual

/-- Recursive-descent parse of one JSON value (fuelled; the fuel is an upper
bound on nesting depth, so input length suffices). -/
def parseValue : Nat → List Char → Option (JsValue × List Char)
  | 0, _ => none
  | fuel + 1, cs =>
    match skipWs cs with
    | '"' :: rest =>
      (parseStringChars rest).map (fun p => (.str (String.mk p.1), p.2))
    | '{' :: rest =>
      (match skipWs rest with
       | '}' :: rest' => some (.obj [], rest')
       | _ => parseMembers fuel rest [])
    | '[' :: rest =>
      (match skipWs rest with
       | ']' :: rest' => some (.arr [], rest')
       | _ => parseElements fuel rest [])
    | other =>
      match stripKeyword "null" other with
      | some rest => some (.null, rest)
      | none =>
        match stripKeyword "true" other with
        | some rest => some (.bool true, rest)
        | none =>
          match stripKeyword "false" other with
          | some rest => some (.bool false, rest)
          | none => (parseIntLit other).map (fun p => (.num p.1, p.2))

/-- Parses the (non-empty) member list of a JSON object, then the closing
brace. -/
def parseMembers : Nat → List Char → List (String × JsValue) →
    Option (JsValue × List Char)
  | 0, _, _ => none
  | fuel + 1, cs, acc =>
    match skipWs cs with
    | '"' :: rest =>
      match parseStringChars rest with
      | none => none
      | some (key, rest1) =>
        match skipWs rest1 with
        | ':' :: rest2 =>
          match parseValue fuel rest2 with
          | none => none
          | some (v, rest3) =>
            let acc' := insertField acc (String.mk key) v
            (match skipWs rest3 with
             | ',' :: rest4 => parseMembers fuel rest4 acc'
             | '}' :: rest4 => some (.obj acc', rest4)
             | _ => none)
        | _ => none
    | _ => none

/-- Parses the (non-empty) element list of a JSON array, then the closing
bracket. -/
def parseElements : Nat → List Char → List JsValue →
    Option (JsValue × List Char)
  | 0, _, _ => none
  | fuel + 1, cs, acc =>
    match parseValue fuel cs with
    | none => none
    | some (v, rest) =>
      (match skipWs rest with
       | ',' :: rest1 => parseElements fuel rest1 (acc ++ [v])
       | ']' :: rest1 => some (.arr (acc ++ [v]), rest1)
       | _ => none)

end

/-- The model of `JSON.parse`: parse one value and require only trailing
whitespace after it.  `none` models the thrown `SyntaxError`. -/
def jsonParse (s : String) : Option JsValue :=
  let cs := s.toList
  match parseValue (cs.length + 1) cs with
  | some (v, rest) => if (skipWs rest).isEmpty then some v else none
  | none => none

/-! ### `ToNumber` (the unary plus of `+source_token_id`) -/

/-- Hexadecimal digit value (`0`–`9`, `a`–`f`, `A`–`F` by code point). -/
def hexDigitVal (c : Char) : Option Nat :=
  let n := c.toNat
  if 48 ≤ n ∧ n ≤ 57 then some (n - 48)
  else if 97 ≤ n ∧ n ≤ 102 then some (n - 87)
  else if 65 ≤ n ∧ n ≤ 70 then some (n - 55)
  else none

def hexVal (ds : List Char) : Option Nat :=
  ds.foldl
    (fun acc c =>
      match acc, hexDigitVal c with
      | some a, some d => some (a * 16 + d)
      | _, _ => none)
    (if ds.isEmpty then none else some 0)

def decVal (ds : List Char) : Option Nat :=
  if ds.isEmpty || !ds.all Char.isDigit then none else some (digitsVal ds)

/-- JavaScript `ToNumber` on a string (the integer-valued subset): trimmed
empty input is `0`; an optional sign followed by decimal digits, or a
`0x`/`0X` hexadecimal literal, yields that integer; every other string is
`NaN`.  (Fractional, exponent and `Infinity` forms are outside the modelled
subset; the pipeline applies this only to claim token ids.) -/
def strToNumber (s : String) : JsValue :=
  let t := (((s.toList.dropWhile Char.isWhitespace).reverse.dropWhile
    Char.isWhitespace).reverse)
  match t with
  | [] => .num 0
  | '-' :: ds =>
    (match decVal ds with
     | some n => .num (-(n : Int))
     | none => .nan)
  | '+' :: ds =>
    (match decVal ds with
     | some n => .num (n : Int)
     | none => .nan)
  | '0' :: 'x' :: ds =>
    (match hexVal ds with
     | some n => .num (n : Int)
     | none => .nan)
  | '0' :: 'X' :: ds =>
    (match hexVal ds with
     | some n => .num (n : Int)
     | none => .nan)
  | ds =>
    (match decVal ds with
     | some n => .num (n : Int)
     | none => .nan)

/-- JavaScript `ToNumber` as applied by the unary plus in
`+source_token_id`.  Arrays and objects go through `ToPrimitive` in
JavaScript, which is outside the modelled subset and yields `NaN` here; the
pipeline only ever applies this to claim-field values. -/
def jsToNumber : JsValue → JsValue
  | .undefined => .nan
  | .null => .num 0
  | .bool b => .num (if b then 1 else 0)
  | .num n => .num n
  | .nan => .nan
  | .str s => strToNumber s
  | .arr _ => .nan
  | .obj _ => .nan

/-! ### Errors, configuration and the chain collaborator -/

/-- The exceptions the service can raise, one constructor per concrete
JavaScript exception site. -/
inductive ClaimError where
  /-- The `SyntaxError` thrown by `JSON.parse` on malformed input. -/
  | malformed
  /-- The `TypeError` thrown by a property access on `undefined` or
  `null` (`data['message']` when the parsed data is `null`, or the guard's
  field accesses when the `message` member is absent or `null`). -/
  | typeError
  /-- The tsoa `ValidateError` thrown by `parseClaimInfo`, carrying the
  offending raw `message` value. -/
  | validation (value : JsValue)
  /-- The generic `Error` throws (`Unexpected number of oracle object`,
  `Unexpected number of objects created`).  The source message interpolates
  the offending value; the model keeps the static prefix.  The spec's
  taxonomy names these `IntegrityError`. -/
  | integrity (msg : String)
  /-- The `TypeError` thrown by `objects.filter(...)[0].id` when no object
  of the gas-coin type exists (indexing an empty array yields `undefined`,
  whose `.id` access throws).  The spec's taxonomy names this failure
  `NotFoundError`. -/
  | notFound

/-- The offending-value payload of a validation error, if the error is
one. -/
def ClaimError.validationValue : ClaimError → Option JsValue
  | .validation v => some v
  | _ => none

/-- Whether the error is one of the generic-`Error` integrity throws. -/
def ClaimError.isIntegrity : ClaimError → Bool
  | .integrity _ => true
  | _ => false

/-- Property access `v[key]` including the throwing cases: access on
`undefined` or `null` throws a `TypeError`. -/
def jsGet (v : JsValue) (key : String) : Except ClaimError JsValue :=
  match v with
  | .undefined => .error .typeError
  | .null => .error .typeError
  | _ => .ok (jsProp v key)

/-- The environment variables the service reads (`process.env`).  The four
`as string` casts are modelled as plain strings (the spec treats
configuration as supplied read-only input); the two `|| default` reads keep
the unset case. -/
structure Env where
  SUI_GATEWAY_ENDPOINT : String
  ORACLE_ADDRESS : String
  ORACLE_CONTRACT_ENTRY_FUNCTION : String
  ORACLE_CONTRACT_ADMIN_IDENTIFIER : String
  ORACLE_CONTRACT_PACKAGE : Option String
  ORACLE_CONTRACT_MODULE : Option String

/-- JavaScript `x || d` on an environment read: unset or empty (falsy)
yields the default. -/
def jsOrElse (v : Option String) (d : String) : String :=
  match v with
  | some s => if s == "" then d else s
  | none => d

/-- An object returned by `bulkFetchObjects`: its identifier and its
on-chain type string. -/
structure OwnedObject where
  id : String
  objType : String
deriving DecidableEq

/-- An entry of the submission result's `created_objects` list. -/
structure CreatedObject where
  id : String

structure ObjectEffectsSummary where
  created_objects : List CreatedObject

/-- The result of `callMoveFunction`. -/
structure MoveCallResult where
  objectEffectsSummary : ObjectEffectsSummary

/-- A JavaScript argument of the move call: `args` mixes strings, the
claim-field values and the coerced token id. -/
abbrev MoveArg := JsValue

/-- The move-call request object built by `executeMoveCall`. -/
structure MoveCallRequest where
  args : List MoveArg
  function : String
  gasBudget : Nat
  gasObjectId : String
  module : String
  packageObjectId : String
  sender : String

/-- The chain connection, an external collaborator: its two methods are
modelled as response functions. -/
structure Connection where
  bulkFetchObjects : String → List OwnedObject
  callMoveFunction : MoveCallRequest → MoveCallResult

/-- One chain interaction, recorded in the order the service performs
them. -/
inductive ChainOp where
  /-- `new Connection(endpoint)`. -/
  | connect (endpoint : String)
  /-- `connection.bulkFetchObjects(address)`. -/
  | fetchObjects (address : String)
  /-- `connection.callMoveFunction(request)`. -/
  | moveCall (request : MoveCallRequest)

/-! ### The service -/

/-- `const DEFAULT_GAS_BUDGET = 2000`. -/
def DEFAULT_GAS_BUDGET : Nat := 2000

/-- The request DTO (`AirdropClaimRequest`). -/
structure AirdropClaimRequest where
  wallet_message : String
  signature : String

/-- The five claim fields.  The TypeScript `as AirdropClaimInfo` cast has no
runtime effect; downstream code reads exactly these five properties of the
`message` value, captured here at their runtime (`JsValue`) type. -/
structure AirdropClaimInfo where
  source_chain : JsValue
  source_contract_address : JsValue
  source_token_id : JsValue
  source_owner_address : JsValue
  destination_sui_address : JsValue

/-- The response DTO (`AirdropClaimResponse`); the first three fields echo
runtime claim values. -/
structure AirdropClaimResponse where
  source_chain : JsValue
  source_contract_address : JsValue
  source_token_id : JsValue
  sui_explorer_link : String

/-- The type guard `isAirdropClaimInfo`: the conjunction of the truthiness
of the five fields.  In JavaScript `a && b` returns the first falsy or last
operand, coerced to a boolean in guard position; each property access
throws a `TypeError` exactly when the argument is `undefined` or `null`. -/
def isAirdropClaimInfo (arg : JsValue) : Except ClaimError Bool :=
  match arg with
  | .undefined => .error .typeError
  | .null => .error .typeError
  | _ =>
    .ok (truthy (jsProp arg "source_chain")
      && truthy (jsProp arg "source_contract_address")
      && truthy (jsProp arg "source_token_id")
      && truthy (jsProp arg "source_owner_address")
      && truthy (jsProp arg "destination_sui_address"))

/-- `parseClaimInfo`: read `data['message']`, apply the guard, and either
return the claim info or throw the tsoa `ValidateError` carrying the raw
`message` value. -/
def parseClaimInfo (data : JsValue) : Except ClaimError AirdropClaimInfo := do
  let msg ← jsGet data "message"
  let ok ← isAirdropClaimInfo msg
  if ok then
    pure
      { source_chain := jsProp msg "source_chain"
        source_contract_address := jsProp msg "source_contract_address"
        source_token_id := jsProp msg "source_token_id"
        source_owner_address := jsProp msg "source_owner_address"
        destination_sui_address := jsProp msg "destination_sui_address" }
  else
    .error (.validation msg)

/-- `getPackageAndModule`: the two configured contract coordinates with
their `||` defaults. -/
def getPackageAndModule (env : Env) : String × String :=
  (jsOrElse env.ORACLE_CONTRACT_PACKAGE "0x2",
   jsOrElse env.ORACLE_CONTRACT_MODULE "CrossChainAirdrop")

/-- `formatObjectId`: the template literal `` `0x${id}` ``. -/
def formatObjectId (id : String) : String := "0x" ++ id

/-- The native gas-coin type string the resolver filters for. -/
def gasCoinType : String := "0x2::Coin::Coin<0x2::GAS::GAS>"

/-- The configured oracle-authority type,
`this.getPackageAndModule().join('::') + '::' + ADMIN_IDENTIFIER`. -/
def oracleTypeIdentifier (env : Env) : String :=
  (getPackageAndModule env).1 ++ "::" ++ (getPackageAndModule env).2 ++ "::"
    ++ env.ORACLE_CONTRACT_ADMIN_IDENTIFIER

/-- `getGasAndOracle`: fetch the oracle account's objects, take the first
gas-coin-typed object's id (indexing `[0].id` throws a `TypeError` when the
filter result is empty — modelled as `ClaimError.notFound`), then require
exactly one object of the configured oracle-authority type, and return both
ids `0x`-formatted.  The single fetch is recorded in the trace. -/
def getGasAndOracle (env : Env) (conn : Connection) (oracleAddress : String) :
    Except ClaimError (String × String) × List ChainOp :=
  let objects := conn.bulkFetchObjects oracleAddress
  let ops := [ChainOp.fetchObjects oracleAddress]
  match (objects.filter (fun o => o.objType == gasCoinType)).head? with
  | none => (.error .notFound, ops)
  | some gasObj =>
    let gasCoin := gasObj.id
    let oracle := objects.filter (fun o => o.objType == oracleTypeIdentifier env)
    match oracle with
    | [oracleObj] =>
      (.ok (formatObjectId gasCoin, formatObjectId oracleObj.id), ops)
    | _ => (.error (.integrity "Unexpected number of oracle object"), ops)

/-- The `args` array of the move call, in source order: oracle object id,
destination address, source contract address, the unary-plus coercion of
the token id, then the two hardcoded display fields. -/
def mintArgs (oracleObjectId : String) (claimInfo : AirdropClaimInfo) :
    List MoveArg :=
  [.str oracleObjectId,
   claimInfo.destination_sui_address,
   claimInfo.source_contract_address,
   jsToNumber claimInfo.source_token_id,
   .str "BoredApeYachtClub",
   .str "ipfs://abc"]

/-- The request object literal of `executeMoveCall`. -/
def mintRequest (env : Env) (gasObjectId oracleObjectId : String)
    (claimInfo : AirdropClaimInfo) : MoveCallRequest :=
  { args := mintArgs oracleObjectId claimInfo
    function := env.ORACLE_CONTRACT_ENTRY_FUNCTION
    gasBudget := DEFAULT_GAS_BUDGET
    gasObjectId := gasObjectId
    module := (getPackageAndModule env).2
    packageObjectId := (getPackageAndModule env).1
    sender := env.ORACLE_ADDRESS }

/-- `executeMoveCall`: resolve the gas and oracle objects, build the
request, submit it, and require exactly one created object (`created[0].id`
is returned; a count other than one throws).  The submission is recorded in
the trace. -/
def executeMoveCall (env : Env) (conn : Connection)
    (claimInfo : AirdropClaimInfo) : Except ClaimError String × List ChainOp :=
  match getGasAndOracle env conn env.ORACLE_ADDRESS with
  | (.error e, ops) => (.error e, ops)
  | (.ok (gasObjectId, oracleObjectId), ops) =>
    let request := mintRequest env gasObjectId oracleObjectId claimInfo
    let result := conn.callMoveFunction request
    let created := result.objectEffectsSummary.created_objects
    match created with
    | [c] => (.ok c.id, ops ++ [ChainOp.moveCall request])
    | _ => (.error (.integrity "Unexpected number of objects created"),
            ops ++ [ChainOp.moveCall request])

/-- The hardcoded explorer link of the response. -/
def placeholderLink : String :=
  "https://djgd7fpxio1yh.cloudfront.net/objects/7bc832ec31709638cd8d9323e90edf332gff4389"

/-- `claim`, the orchestrator: `JSON.parse` the wallet message, parse and
validate the claim info, open the connection, execute the move call, and
echo the three source-chain fields with the hardcoded explorer link.  Both
parse failures occur before the connection is created, so their traces are
empty. -/
def claim (env : Env) (conn : Connection) (claimMessage : AirdropClaimRequest) :
    Except ClaimError AirdropClaimResponse × List ChainOp :=
  match jsonParse claimMessage.wallet_message with
  | none => (.error .malformed, [])
  | some data =>
    match parseClaimInfo data with
    | .error e => (.error e, [])
    | .ok claimInfo =>
      let ops0 := [ChainOp.connect env.SUI_GATEWAY_ENDPOINT]
      match executeMoveCall env conn claimInfo with
      | (.error e, ops) => (.error e, ops0 ++ ops)
      | (.ok _, ops) =>
        (.ok
          { source_chain := claimInfo.source_chain
            source_contract_address := claimInfo.source_contract_address
            source_token_id := claimInfo.source_token_id
            sui_explorer_link := placeholderLink },
         ops0 ++ ops)

/-! ### Concrete fixtures used by the witnesses -/

/-- A concrete configuration (package and module left to their defaults,
so the oracle-authority type is
`0x2::CrossChainAirdrop::CrossChainAirdropOracle`). -/
def env0 : Env :=
  { SUI_GATEWAY_ENDPOINT := "http://gateway.local"
    ORACLE_ADDRESS := "a1b2"
    ORACLE_CONTRACT_ENTRY_FUNCTION := "claim"
    ORACLE_CONTRACT_ADMIN_IDENTIFIER := "CrossChainAirdropOracle"
    ORACLE_CONTRACT_PACKAGE := none
    ORACLE_CONTRACT_MODULE := none }

/-- A connection whose account owns one gas object and one oracle object,
and whose submission creates exactly one object. -/
def conn0 : Connection :=
  { bulkFetchObjects := fun _ =>
      [{ id := "9999", objType := gasCoinType },
       { id := "abcd", objType := "0x2::CrossChainAirdrop::CrossChainAirdropOracle" }]
    callMoveFunction := fun _ =>
      { objectEffectsSummary := { created_objects := [{ id := "7bc8" }] } } }

/-- A connection identical to `conn0` except that the submission creates
two objects. -/
def connTwoCreated : Connection :=
  { bulkFetchObjects := conn0.bulkFetchObjects
    callMoveFunction := fun _ =>
      { objectEffectsSummary :=
          { created_objects := [{ id := "7bc8" }, { id := "7bc9" }] } } }

/-- A connection whose account owns no objects at all. -/
def connEmpty : Connection :=
  { bulkFetchObjects := fun _ => []
    callMoveFunction := conn0.callMoveFunction }

/-- A well-formed request: the spec's example claim, abbreviated
addresses. -/
def req0 : AirdropClaimRequest :=
  { wallet_message := "\x7b\"message\":\x7b\"source_chain\":\"ethereum\",\"source_contract_address\":\"0xBC4C\",\"source_token_id\":\"8937\",\"source_owner_address\":\"0x09db\",\"destination_sui_address\":\"0xa5e6\"\x7d\x7d"
    signature := "abc" }

/-- A request identical to `req0` except that the token id is the
non-numeric string `abc`. -/
def reqNonNumericId : AirdropClaimRequest :=
  { wallet_message := "\x7b\"message\":\x7b\"source_chain\":\"ethereum\",\"source_contract_address\":\"0xBC4C\",\"source_token_id\":\"abc\",\"source_owner_address\":\"0x09db\",\"destination_sui_address\":\"0xa5e6\"\x7d\x7d"
    signature := "abc" }

/-- A request whose wallet message is not valid JSON. -/
def reqMalformed : AirdropClaimRequest :=
  { wallet_message := "\x7b", signature := "abc" }

/-- A request whose payload's `message` member is missing the
`source_token_id` field. -/
def reqMissingField : AirdropClaimRequest :=
  { wallet_message := "\x7b\"message\":\x7b\"source_chain\":\"ethereum\",\"source_contract_address\":\"0xBC4C\",\"source_owner_address\":\"0x09db\",\"destination_sui_address\":\"0xa5e6\"\x7d\x7d"
    signature := "abc" }

/-- A connection whose account owns a gas object but no oracle-authority
object. -/
def connGasNoOracle : Connection :=
  { bulkFetchObjects := fun _ => [{ id := "9999", objType := gasCoinType }]
    callMoveFunction := conn0.callMoveFunction }

/-- A connection identical to `conn0` except that the single created object
has a different identifier. -/
def connOtherCreated : Connection :=
  { bulkFetchObjects := conn0.bulkFetchObjects
    callMoveFunction := fun _ =>
      { objectEffectsSummary := { created_objects := [{ id := "zzzz" }] } } }

/-- The parse of `req0.wallet_message`. -/
def data0 : JsValue :=
  .obj [("message", .obj
    [("source_chain", .str "ethereum"),
     ("source_contract_address", .str "0xBC4C"),
     ("source_token_id", .str "8937"),
     ("source_owner_address", .str "0x09db"),
     ("destination_sui_address", .str "0xa5e6")])]

/-- The claim info extracted from `data0`. -/
def ci0 : AirdropClaimInfo :=
  { source_chain := .str "ethereum"
    source_contract_address := .str "0xBC4C"
    source_token_id := .str "8937"
    source_owner_address := .str "0x09db"
    destination_sui_address := .str "0xa5e6" }

/-- The parse of `reqNonNumericId.wallet_message`. -/
def dataNonNumeric : JsValue :=
  .obj [("message", .obj
    [("source_chain", .str "ethereum"),
     ("source_contract_address", .str "0xBC4C"),
     ("source_token_id", .str "abc"),
     ("source_owner_address", .str "0x09db"),
     ("destination_sui_address", .str "0xa5e6")])]

/-- The claim info extracted from `dataNonNumeric`. -/
def ciNonNumeric : AirdropClaimInfo :=
  { source_chain := .str "ethereum"
    source_contract_address := .str "0xBC4C"
    source_token_id := .str "abc"
    source_owner_address := .str "0x09db"
    destination_sui_address := .str "0xa5e6" }

/-- The `message` object of `reqMissingField` (no `source_token_id`). -/
def msgMissingField : JsValue :=
  .obj [("source_chain", .str "ethereum"),
        ("source_contract_address", .str "0xBC4C"),
        ("source_owner_address", .str "0x09db"),
        ("destination_sui_address", .str "0xa5e6")]

/-- The parse of `reqMissingField.wallet_message`. -/
def dataMissingField : JsValue := .obj [("message", msgMissingField)]

/-! ### Helper lemmas -/

set_option maxRecDepth 100000

/-- The resolver performs exactly one fetch, whatever its outcome. -/
theorem getGasAndOracle_trace (env : Env) (conn : Connection) (addr : String) :
    (getGasAndOracle env conn addr).2 = [ChainOp.fetchObjects addr] := by
  unfold getGasAndOracle
  dsimp only
  split
  · rfl
  · split <;> rfl

/-- Once object resolution succeeds, `executeMoveCall` submits exactly the
built request and keeps the single created object's id. -/
theorem executeMoveCall_ok (env : Env) (conn : Connection)
    (ci : AirdropClaimInfo) (gas oracle : String) (ops : List ChainOp)
    (h : getGasAndOracle env conn env.ORACLE_ADDRESS = (.ok (gas, oracle), ops)) :
    executeMoveCall env conn ci =
      (match (conn.callMoveFunction
          (mintRequest env gas oracle ci)).objectEffectsSummary.created_objects with
       | [c] => .ok c.id
       | _ => .error (.integrity "Unexpected number of objects created"),
       ops ++ [ChainOp.moveCall (mintRequest env gas oracle ci)]) := by
  unfold executeMoveCall
  rw [h]
  dsimp only
  cases hc : (conn.callMoveFunction
      (mintRequest env gas oracle ci)).objectEffectsSummary.created_objects with
  | nil => rfl
  | cons c t => cases t <;> rfl

/-- Once parsing succeeds, `claim` is the move-call execution followed by
the response assembly, behind the connect trace entry. -/
theorem claim_ok_core (env : Env) (conn : Connection)
    (req : AirdropClaimRequest) (data : JsValue) (ci : AirdropClaimInfo)
    (h1 : jsonParse req.wallet_message = some data)
    (h2 : parseClaimInfo data = .ok ci) :
    claim env conn req =
      (match (executeMoveCall env conn ci).1 with
       | .error e => .error e
       | .ok _ => .ok
           { source_chain := ci.source_chain
             source_contract_address := ci.source_contract_address
             source_token_id := ci.source_token_id
             sui_explorer_link := placeholderLink },
       ChainOp.connect env.SUI_GATEWAY_ENDPOINT :: (executeMoveCall env conn ci).2) := by
  unfold claim
  rw [h1]
  dsimp only
  rw [h2]
  dsimp only
  rcases he : executeMoveCall env conn ci with ⟨res, tr⟩
  cases res <;> rfl

/-- Every successful claim's link is the hardcoded placeholder. -/
theorem claim_ok_link (env : Env) (conn : Connection)
    (req : AirdropClaimRequest) (r : AirdropClaimResponse) (tr : List ChainOp)
    (h : claim env conn req = (.ok r, tr)) :
    r.sui_explorer_link = placeholderLink := by
  unfold claim at h
  cases hj : jsonParse req.wallet_message with
  | none => rw [hj] at h; simp at h
  | some data =>
    rw [hj] at h
    dsimp only at h
    cases hp : parseClaimInfo data with
    | error e => rw [hp] at h; simp at h
    | ok ci =>
      rw [hp] at h
      dsimp only at h
      rcases he : executeMoveCall env conn ci with ⟨res, tr2⟩
      rw [he] at h
      cases res with
      | error e => simp at h
      | ok s =>
        simp only [Prod.mk.injEq] at h
        rcases h with ⟨hr, -⟩
        cases hr
        rfl

/-! ### The claims -/

/-- C1: for every claim whose parsing and object resolution succeed, the
built move call's positional argument list is exactly `[oracleObjectId,
destination_sui_address, source_contract_address, source_token_id converted
to an integer, collection name, token URI]`, in that order. -/
theorem claim_args_order (env : Env) (conn : Connection)
    (req : AirdropClaimRequest) (data : JsValue) (ci : AirdropClaimInfo)
    (gas oracle : String) (ops : List ChainOp)
    (h1 : jsonParse req.wallet_message = some data)
    (h2 : parseClaimInfo data = .ok ci)
    (h3 : getGasAndOracle env conn env.ORACLE_ADDRESS = (.ok (gas, oracle), ops)) :
    ∃ request, (claim env conn req).2.get? 2 = some (ChainOp.moveCall request) ∧
      request.args =
        [JsValue.str oracle,
         ci.destination_sui_address,
         ci.source_contract_address,
         jsToNumber ci.source_token_id,
         JsValue.str "BoredApeYachtClub",
         JsValue.str "ipfs://abc"] := by
  have hops : ops = [ChainOp.fetchObjects env.ORACLE_ADDRESS] := by
    have ht := getGasAndOracle_trace env conn env.ORACLE_ADDRESS
    rw [h3] at ht
    exact ht
  subst hops
  refine ⟨mintRequest env gas oracle ci, ?_, rfl⟩
  rw [claim_ok_core env conn req data ci h1 h2]
  dsimp only
  rw [executeMoveCall_ok env conn ci gas oracle _ h3]
  rfl

/-- C1, checked on the spec's example claim against a singleton gas and
oracle object: the argument list is the oracle object id, the destination
address, the source contract, the parsed token id `8937`, and the two
hardcoded display fields. -/
theorem claim_args_order_checked :
    ∃ request, (claim env0 conn0 req0).2.get? 2 = some (ChainOp.moveCall request) ∧
      request.args =
        [JsValue.str "0xabcd", JsValue.str "0xa5e6", JsValue.str "0xBC4C",
         JsValue.num 8937, JsValue.str "BoredApeYachtClub",
         JsValue.str "ipfs://abc"] :=
  claim_args_order env0 conn0 req0 data0 ci0 "0x9999" "0xabcd"
    [ChainOp.fetchObjects "a1b2"] rfl rfl rfl

/-- C2 (amended): a payload whose `message` member fails the five-field
guard is rejected with the tsoa `ValidateError` carrying the raw value and
causes no chain interaction; a wallet message `JSON.parse` cannot
deserialize aborts with the `SyntaxError` (not a `ValidateError`), also
with no chain interaction. -/
theorem claim_rejects_invalid_payload (env : Env) (conn : Connection)
    (req : AirdropClaimRequest) :
    (jsonParse req.wallet_message = none →
      claim env conn req = (.error .malformed, [])) ∧
    (∀ data msg, jsonParse req.wallet_message = some data →
      jsGet data "message" = .ok msg →
      isAirdropClaimInfo msg = .ok false →
      claim env conn req = (.error (.validation msg), [])) := by
  constructor
  · intro h
    unfold claim
    rw [h]
  · intro data msg h1 h2 h3
    have hp : parseClaimInfo data = .error (.validation msg) := by
      unfold parseClaimInfo
      rw [h2]
      show Except.bind (isAirdropClaimInfo msg) _ = _
      rw [h3]
      rfl
    unfold claim
    rw [h1]
    dsimp only
    rw [hp]

/-- C2: the counterexample to the claim as stated — a malformed wallet
message (`"{"`) makes `claim` signal the deserialization `SyntaxError`,
which carries no offending value and is not the structured validation
error. -/
theorem claim_malformed_not_validation :
    claim env0 conn0 reqMalformed = (.error .malformed, []) ∧
    ClaimError.malformed.validationValue = none := ⟨rfl, rfl⟩

/-- C2, checked: the malformed request and the missing-`source_token_id`
request are both rejected with an empty chain trace, the latter with the
validation error carrying the raw `message` object. -/
theorem claim_rejects_invalid_payload_checked :
    claim env0 conn0 reqMalformed = (.error .malformed, []) ∧
    claim env0 conn0 reqMissingField =
      (.error (.validation msgMissingField), []) :=
  ⟨(claim_rejects_invalid_payload env0 conn0 reqMalformed).1 rfl,
   (claim_rejects_invalid_payload env0 conn0 reqMissingField).2
     dataMissingField msgMissingField rfl rfl rfl⟩

/-- C3 (amended): when the account owns at least one gas-type object, an
oracle-authority-object count other than one makes the resolver signal the
integrity error and return no pair; without a gas-type object the no-gas
failure preempts the oracle-count check. -/
theorem getGasAndOracle_oracle_count (env : Env) (conn : Connection)
    (addr : String)
    (hgas : (conn.bulkFetchObjects addr).filter
      (fun o => o.objType == gasCoinType) ≠ [])
    (hcount : ((conn.bulkFetchObjects addr).filter
      (fun o => o.objType == oracleTypeIdentifier env)).length ≠ 1) :
    getGasAndOracle env conn addr =
      (.error (.integrity "Unexpected number of oracle object"),
       [ChainOp.fetchObjects addr]) := by
  unfold getGasAndOracle
  dsimp only
  cases hh : ((conn.bulkFetchObjects addr).filter
      (fun o => o.objType == gasCoinType)).head? with
  | none =>
    exact absurd (List.head?_eq_none_iff.mp hh) hgas
  | some g =>
    dsimp only
    cases hl : (conn.bulkFetchObjects addr).filter
        (fun o => o.objType == oracleTypeIdentifier env) with
    | nil => rfl
    | cons x t =>
      cases t with
      | nil => rw [hl] at hcount; simp at hcount
      | cons y t2 => rfl

/-- C3: the counterexample to the claim as stated — on an account owning no
objects at all, the oracle-authority count is zero, yet the resolver fails
with the no-gas `TypeError` (`notFound`), not the integrity error. -/
theorem getGasAndOracle_empty_not_integrity :
    ((connEmpty.bulkFetchObjects "a1b2").filter
      (fun o => o.objType == oracleTypeIdentifier env0)).length = 0 ∧
    (getGasAndOracle env0 connEmpty "a1b2").1 = .error .notFound ∧
    ClaimError.notFound.isIntegrity = false := ⟨rfl, rfl, rfl⟩

/-- C3, checked: one gas object and zero oracle objects yield the integrity
error. -/
theorem getGasAndOracle_oracle_count_checked :
    getGasAndOracle env0 connGasNoOracle "a1b2" =
      (.error (.integrity "Unexpected number of oracle object"),
       [ChainOp.fetchObjects "a1b2"]) :=
  getGasAndOracle_oracle_count env0 connGasNoOracle "a1b2"
    (by decide) (by decide)

/-- C4: the code at the failing input — a claim whose `source_token_id` is
the non-numeric string `"abc"` passes the validation guard, is never
rejected, and the invocation is built and submitted with `NaN` (the unary
plus of `"abc"`) in the token-id position; the claim even completes
successfully. -/
theorem claim_nonNumericId_not_rejected :
    (claim env0 conn0 reqNonNumericId).2.get? 2 = some (ChainOp.moveCall
      { args := [JsValue.str "0xabcd", JsValue.str "0xa5e6",
                 JsValue.str "0xBC4C", JsValue.nan,
                 JsValue.str "BoredApeYachtClub", JsValue.str "ipfs://abc"]
        function := "claim"
        gasBudget := 2000
        gasObjectId := "0x9999"
        module := "CrossChainAirdrop"
        packageObjectId := "0x2"
        sender := "a1b2" }) ∧
    (claim env0 conn0 reqNonNumericId).1 = .ok
      { source_chain := .str "ethereum"
        source_contract_address := .str "0xBC4C"
        source_token_id := .str "abc"
        sui_explorer_link := placeholderLink } := ⟨rfl, rfl⟩

/-- C5: once parsing and resolution have succeeded, a submission result
with a created-objects count other than one makes the orchestrator signal
the integrity error, and a response is produced only when exactly one
object was created. -/
theorem claim_created_count (env : Env) (conn : Connection)
    (req : AirdropClaimRequest) (data : JsValue) (ci : AirdropClaimInfo)
    (gas oracle : String) (ops : List ChainOp)
    (h1 : jsonParse req.wallet_message = some data)
    (h2 : parseClaimInfo data = .ok ci)
    (h3 : getGasAndOracle env conn env.ORACLE_ADDRESS = (.ok (gas, oracle), ops)) :
    (((conn.callMoveFunction
        (mintRequest env gas oracle ci)).objectEffectsSummary.created_objects).length ≠ 1 →
      (claim env conn req).1 =
        .error (.integrity "Unexpected number of objects created")) ∧
    (∀ r tr, claim env conn req = (.ok r, tr) →
      ((conn.callMoveFunction
        (mintRequest env gas oracle ci)).objectEffectsSummary.created_objects).length = 1) := by
  have hclaim := claim_ok_core env conn req data ci h1 h2
  have hexec := executeMoveCall_ok env conn ci gas oracle ops h3
  constructor
  · intro hlen
    rw [hclaim]
    dsimp only
    rw [hexec]
    dsimp only
    cases hc : (conn.callMoveFunction
        (mintRequest env gas oracle ci)).objectEffectsSummary.created_objects with
    | nil => rfl
    | cons c t =>
      cases t with
      | nil => rw [hc] at hlen; simp at hlen
      | cons d t2 => rfl
  · intro r tr h
    rw [hclaim, hexec] at h
    dsimp only at h
    cases hc : (conn.callMoveFunction
        (mintRequest env gas oracle ci)).objectEffectsSummary.created_objects with
    | nil => rw [hc] at h; simp at h
    | cons c t =>
      cases t with
      | nil => rfl
      | cons d t2 => rw [hc] at h; simp at h

/-- C5, checked: with a submission creating two objects, the same
well-formed claim is answered with the integrity error. -/
theorem claim_created_count_checked :
    (claim env0 connTwoCreated req0).1 =
      .error (.integrity "Unexpected number of objects created") :=
  (claim_created_count env0 connTwoCreated req0 data0 ci0 "0x9999" "0xabcd"
    [ChainOp.fetchObjects "a1b2"] rfl rfl rfl).1 (by decide)

/-- C6: every successfully completed claim echoes `source_chain`,
`source_contract_address` and `source_token_id` from the parsed claim info,
unchanged. -/
theorem claim_echoes_source_fields (env : Env) (conn : Connection)
    (req : AirdropClaimRequest) (data : JsValue) (ci : AirdropClaimInfo)
    (r : AirdropClaimResponse) (tr : List ChainOp)
    (h1 : jsonParse req.wallet_message = some data)
    (h2 : parseClaimInfo data = .ok ci)
    (h3 : claim env conn req = (.ok r, tr)) :
    r.source_chain = ci.source_chain ∧
    r.source_contract_address = ci.source_contract_address ∧
    r.source_token_id = ci.source_token_id := by
  rw [claim_ok_core env conn req data ci h1 h2] at h3
  cases he : (executeMoveCall env conn ci).1 with
  | error e => rw [he] at h3; simp at h3
  | ok s =>
    rw [he] at h3
    simp only [Prod.mk.injEq] at h3
    rcases h3 with ⟨hr, -⟩
    cases hr
    exact ⟨rfl, rfl, rfl⟩

/-- C6, checked on the example claim: the response repeats the three
source-chain fields of the parsed claim. -/
theorem claim_echoes_source_fields_checked :
    ({ source_chain := .str "ethereum"
       source_contract_address := .str "0xBC4C"
       source_token_id := .str "8937"
       sui_explorer_link := placeholderLink } : AirdropClaimResponse).source_chain
        = ci0.source_chain ∧
    ({ source_chain := .str "ethereum"
       source_contract_address := .str "0xBC4C"
       source_token_id := .str "8937"
       sui_explorer_link := placeholderLink } : AirdropClaimResponse).source_contract_address
        = ci0.source_contract_address ∧
    ({ source_chain := .str "ethereum"
       source_contract_address := .str "0xBC4C"
       source_token_id := .str "8937"
       sui_explorer_link := placeholderLink } : AirdropClaimResponse).source_token_id
        = ci0.source_token_id :=
  claim_echoes_source_fields env0 conn0 req0 data0 ci0 _ _ rfl rfl rfl

/-- C7: when the account owns no object of the native gas-coin type, the
resolver fails with the no-gas error (the `TypeError` of `filter(...)[0].id`
on an empty filter result, the failure the spec names `NotFoundError`) and
returns no pair. -/
theorem getGasAndOracle_no_gas (env : Env) (conn : Connection) (addr : String)
    (h : ∀ o ∈ conn.bulkFetchObjects addr, o.objType ≠ gasCoinType) :
    getGasAndOracle env conn addr =
      (.error .notFound, [ChainOp.fetchObjects addr]) := by
  have hf : (conn.bulkFetchObjects addr).filter
      (fun o => o.objType == gasCoinType) = [] := by
    rw [List.filter_eq_nil_iff]
    intro a ha
    simpa using h a ha
  unfold getGasAndOracle
  dsimp only
  rw [hf]
  rfl

/-- C7, checked: an account owning nothing yields the no-gas failure. -/
theorem getGasAndOracle_no_gas_checked :
    getGasAndOracle env0 connEmpty "a1b2" =
      (.error .notFound, [ChainOp.fetchObjects "a1b2"]) :=
  getGasAndOracle_no_gas env0 connEmpty "a1b2"
    (by intro o ho; exact absurd ho (by simp [connEmpty]))

/-- C8: every move-call request the orchestrator submits carries the fixed
gas budget `2000` and is sent by the configured oracle account address. -/
theorem claim_budget_and_sender (env : Env) (conn : Connection)
    (req : AirdropClaimRequest) (i : Nat) (request : MoveCallRequest)
    (h : (claim env conn req).2.get? i = some (ChainOp.moveCall request)) :
    request.gasBudget = 2000 ∧ request.sender = env.ORACLE_ADDRESS := by
  cases hj : jsonParse req.wallet_message with
  | none =>
    unfold claim at h
    rw [hj] at h
    simp at h
  | some data =>
    cases hp : parseClaimInfo data with
    | error e =>
      unfold claim at h
      rw [hj] at h
      dsimp only at h
      rw [hp] at h
      simp at h
    | ok ci =>
      rw [claim_ok_core env conn req data ci hj hp] at h
      rcases hg : getGasAndOracle env conn env.ORACLE_ADDRESS with ⟨res, ops⟩
      have hops : ops = [ChainOp.fetchObjects env.ORACLE_ADDRESS] := by
        have ht := getGasAndOracle_trace env conn env.ORACLE_ADDRESS
        rw [hg] at ht
        exact ht
      subst hops
      cases res with
      | error e =>
        have he : executeMoveCall env conn ci =
            (.error e, [ChainOp.fetchObjects env.ORACLE_ADDRESS]) := by
          unfold executeMoveCall
          rw [hg]
        rw [he] at h
        rcases i with - | - | i <;> simp at h
      | ok pair =>
        rcases pair with ⟨gas, oracle⟩
        rw [executeMoveCall_ok env conn ci gas oracle _ hg] at h
        rcases i with - | - | - | i <;> simp at h
        subst h
        exact ⟨rfl, rfl⟩

/-- C8, checked: the request submitted for the example claim has gas budget
`2000` and the oracle account as sender. -/
theorem claim_budget_and_sender_checked :
    ({ args := [JsValue.str "0xabcd", JsValue.str "0xa5e6",
                JsValue.str "0xBC4C", JsValue.num 8937,
                JsValue.str "BoredApeYachtClub", JsValue.str "ipfs://abc"]
       function := "claim"
       gasBudget := 2000
       gasObjectId := "0x9999"
       module := "CrossChainAirdrop"
       packageObjectId := "0x2"
       sender := "a1b2" } : MoveCallRequest).gasBudget = 2000 ∧
    ({ args := [JsValue.str "0xabcd", JsValue.str "0xa5e6",
                JsValue.str "0xBC4C", JsValue.num 8937,
                JsValue.str "BoredApeYachtClub", JsValue.str "ipfs://abc"]
       function := "claim"
       gasBudget := 2000
       gasObjectId := "0x9999"
       module := "CrossChainAirdrop"
       packageObjectId := "0x2"
       sender := "a1b2" } : MoveCallRequest).sender = env0.ORACLE_ADDRESS :=
  claim_budget_and_sender env0 conn0 req0 2 _ rfl

/-- C9: `formatObjectId` prepends `0x` unconditionally — an id already
carrying the prefix comes back as `0x0x...` — so it is never idempotent. -/
theorem formatObjectId_unconditional (id : String) :
    formatObjectId id = "0x" ++ id ∧
    formatObjectId ("0x" ++ id) = "0x0x" ++ id ∧
    formatObjectId (formatObjectId id) ≠ formatObjectId id := by
  refine ⟨rfl, ?_, ?_⟩
  · show "0x" ++ ("0x" ++ id) = "0x0x" ++ id
    rw [← String.append_assoc]
    have h2 : ("0x" : String) ++ "0x" = "0x0x" := by decide
    rw [h2]
  · intro hcontra
    have hlen := congrArg String.length hcontra
    simp only [formatObjectId, String.length_append] at hlen
    have h2 : ("0x" : String).length = 2 := rfl
    rw [h2] at hlen
    omega

/-- C10: the explorer link of every successful response is the one
hardcoded placeholder string, whatever the configuration, connection and
claim were; two successful claims always receive the same link. -/
theorem claim_link_constant (env : Env) (conn : Connection)
    (req : AirdropClaimRequest) (r : AirdropClaimResponse) (tr : List ChainOp)
    (env' : Env) (conn' : Connection) (req' : AirdropClaimRequest)
    (r' : AirdropClaimResponse) (tr' : List ChainOp)
    (h : claim env conn req = (.ok r, tr))
    (h' : claim env' conn' req' = (.ok r', tr')) :
    r.sui_explorer_link = placeholderLink ∧
    r'.sui_explorer_link = r.sui_explorer_link := by
  have a := claim_ok_link env conn req r tr h
  have b := claim_ok_link env' conn' req' r' tr' h'
  exact ⟨a, b.trans a.symm⟩

/-- C10, checked: two claims whose submissions create different objects
(`7bc8` vs `zzzz`) both receive the placeholder link. -/
theorem claim_link_constant_checked :
    ({ source_chain := .str "ethereum"
       source_contract_address := .str "0xBC4C"
       source_token_id := .str "8937"
       sui_explorer_link := placeholderLink } : AirdropClaimResponse).sui_explorer_link
        = placeholderLink ∧
    ({ source_chain := .str "ethereum"
       source_contract_address := .str "0xBC4C"
       source_token_id := .str "8937"
       sui_explorer_link := placeholderLink } : AirdropClaimResponse).sui_explorer_link
        = ({ source_chain := .str "ethereum"
             source_contract_address := .str "0xBC4C"
             source_token_id := .str "8937"
             sui_explorer_link := placeholderLink } : AirdropClaimResponse).sui_explorer_link :=
  claim_link_constant env0 conn0 req0 _ _ env0 connOtherCreated req0 _ _ rfl rfl

end Airdrop
